import Mathlib

/-!
Verification of the cross-signal correlation and analysis orchestration
pipeline of the openshift-ai-observability-summarizer repository.

The Lean definitions below are a shallow embedding of the Python sources:
- `src/mcp_server/tools/observability_openshift_tools.py` (`chat_openshift`)
- `trace-korrel8r-poc/backend/observability_service.py`
  (`correlate_metric_to_traces`, `correlate_trace_to_metrics`,
   `analyze_incident`, `_query_korrel8r`, `_query_prometheus`,
   `_get_tempo_trace`, `_extract_keywords`)
- `trace-korrel8r-poc/backend/llm_client.py` (`_parse_llm_response`)
- `trace-korrel8r-poc/ui/observe_ui.py` (`get_prometheus_metrics`)

External HTTP backends and the LLM are modelled as oracles (explicit
parameters giving the outcome of each call); Python exceptions are modelled
with `Except`; Python `str` operations are re-implemented on Lean strings.
-/

namespace ObsSummarizer

/-! ## Python string primitives -/

/-- Whitespace characters recognised by Python `str.split()` / `str.strip()`
(ASCII subset: space, tab, newline, carriage return, vertical tab, form feed). -/
def pyWs (c : Char) : Bool :=
  c = ' ' || c = '\t' || c = '\n' || c = '\r' || c = '\x0b' || c = '\x0c'

/-- Python `str.strip()` with no arguments: drop leading and trailing whitespace. -/
def pyStrip (s : String) : String :=
  String.mk (((s.data.dropWhile pyWs).reverse.dropWhile pyWs).reverse)

/-- Accumulator-based splitter over characters (structural, so that it
reduces inside the kernel). -/
def splitWsAux : List Char → List Char → List String
  | [], acc => if acc.isEmpty then [] else [String.mk acc.reverse]
  | c :: cs, acc =>
    if pyWs c then
      if acc.isEmpty then splitWsAux cs []
      else String.mk acc.reverse :: splitWsAux cs []
    else splitWsAux cs (c :: acc)

/-- Python `str.split()` with no arguments: split on whitespace runs,
discarding empty pieces. -/
def pySplitWs (s : String) : List String :=
  splitWsAux s.data []

/-- Python `str.lower()` (ASCII; characterwise). -/
def pyLower (s : String) : String :=
  String.mk (s.data.map Char.toLower)

/-- Python `s.startswith(pre)`. -/
def pyStartsWith (s pre : String) : Bool :=
  pre.data.isPrefixOf s.data

/-- Python `needle in haystack` on strings: substring containment. -/
def strContains (haystack needle : String) : Bool :=
  decide (needle.data <:+: haystack.data)

/-- Replace the first occurrence of `pat` by `repl`, on character lists.
Mirrors Python `str.replace(pat, repl, 1)` for a non-empty `pat`. -/
def replaceFirstL (pat repl : List Char) : List Char → List Char
  | [] => []
  | c :: cs =>
    if pat.isPrefixOf (c :: cs) then repl ++ (c :: cs).drop pat.length
    else c :: replaceFirstL pat repl cs

/-- Replace the first occurrence of `pat` by `repl` in a string
(Python `s.replace(pat, repl, 1)`; `pat` is non-empty at every use site). -/
def strReplaceFirst (s pat repl : String) : String :=
  String.mk (replaceFirstL pat.data repl.data s.data)

/-! ## Namespace injection (chat_openshift, observability_openshift_tools.py 216-220)

```python
if promql and namespace and "namespace=" not in promql:
    if "{" in promql:
        promql = promql.replace("{", f'{{namespace="{namespace}", ', 1)
    else:
        promql = f'{promql}{{namespace="{namespace}"}}'
```
-/

/-- The namespace-injection rule of `chat_openshift`. -/
def injectNamespace (promql ns : String) : String :=
  if promql ≠ "" ∧ ns ≠ "" ∧ strContains promql "namespace=" = false then
    if strContains promql "\x7b" = true then
      strReplaceFirst promql "\x7b" ("\x7bnamespace=\"" ++ ns ++ "\", ")
    else
      promql ++ "\x7bnamespace=\"" ++ ns ++ "\"\x7d"
  else promql

/-! ### Lemmas for idempotence of `injectNamespace` -/

theorem replaceFirstL_infix_of_contains {pat repl : List Char} (hp : pat ≠ [])
    (l : List Char) (h : pat <:+: l) : repl <:+: replaceFirstL pat repl l := by
  induction l with
  | nil =>
    exact absurd (List.eq_nil_of_infix_nil h) hp
  | cons c cs ih =>
    by_cases hpre : pat.isPrefixOf (c :: cs)
    · simp only [replaceFirstL, if_pos hpre]
      exact (List.prefix_append repl _).isInfix
    · simp only [replaceFirstL, if_neg hpre]
      have h' : pat <:+: cs := by
        rcases List.infix_cons_iff.mp h with h1 | h2
        · exact absurd ((List.isPrefixOf_iff_prefix).mpr h1) hpre
        · exact h2
      exact List.infix_cons (ih h')

theorem strContains_injected_left (promql ns : String)
    (hb : strContains promql "\x7b" = true) :
    strContains (strReplaceFirst promql "\x7b" ("\x7bnamespace=\"" ++ ns ++ "\", "))
      "namespace=" = true := by
  have hocc : ("\x7b" : String).data <:+: promql.data := of_decide_eq_true hb
  have hrepl := @replaceFirstL_infix_of_contains ("\x7b" : String).data
    ("\x7bnamespace=\"" ++ ns ++ "\", " : String).data
    (by decide) promql.data hocc
  have hin : ("namespace=" : String).data <:+:
      ("\x7bnamespace=\"" ++ ns ++ "\", " : String).data := by
    have h1 : ("namespace=" : String).data <:+: ("\x7bnamespace=\"" : String).data := by
      decide
    have h2 : ("\x7bnamespace=\"" : String).data <+:
        ("\x7bnamespace=\"" ++ ns ++ "\", " : String).data := by
      rw [String.data_append, String.data_append]
      rw [List.append_assoc]
      exact List.prefix_append _ _
    exact h1.trans h2.isInfix
  exact decide_eq_true (hin.trans hrepl)

theorem strContains_injected_right (promql ns : String) :
    strContains (promql ++ "\x7bnamespace=\"" ++ ns ++ "\"\x7d") "namespace=" = true := by
  have h1 : ("namespace=" : String).data <:+: ("\x7bnamespace=\"" : String).data := by
    decide
  have h2 : ("\x7bnamespace=\"" : String).data <:+:
      (promql ++ "\x7bnamespace=\"" ++ ns ++ "\"\x7d").data := by
    rw [String.data_append, String.data_append, String.data_append]
    exact (((List.suffix_append _ _).isInfix).trans
      (List.prefix_append _ _).isInfix).trans (List.prefix_append _ _).isInfix
  exact decide_eq_true (h1.trans h2)

/-- C5: the injection rule is idempotent — applying it to a query that
already carries the namespace constraint leaves the query unchanged, so a
second application is always the identity. -/
theorem injectNamespace_idempotent (q ns : String) :
    injectNamespace (injectNamespace q ns) ns = injectNamespace q ns := by
  unfold injectNamespace
  by_cases hguard : q ≠ "" ∧ ns ≠ "" ∧ strContains q "namespace=" = false
  · rw [if_pos hguard]
    by_cases hb : strContains q "\x7b" = true
    · rw [if_pos hb]
      have hcontains := strContains_injected_left q ns hb
      rw [if_neg]
      intro hg2
      rw [hcontains] at hg2
      exact absurd hg2.2.2 (by simp)
    · rw [if_neg hb]
      have hcontains := strContains_injected_right q ns
      rw [if_neg]
      intro hg2
      rw [show q ++ "\x7bnamespace=\"" ++ ns ++ "\"\x7d" =
        q ++ "\x7bnamespace=\"" ++ ns ++ "\"\x7d" from rfl] at hg2
      rw [hcontains] at hg2
      exact absurd hg2.2.2 (by simp)
  · rw [if_neg hguard, if_neg hguard]

/-! ## JSON values (the shapes produced by Python `json.loads` / passed to `json.dumps`) -/

/-- JSON values. Numbers keep their source lexeme (no claim in this
development inspects a numeric value beyond zero-ness). -/
inductive Json where
  | null
  | bool (b : Bool)
  | num (lexeme : String)
  | str (s : String)
  | arr (elems : List Json)
  | obj (fields : List (String × Json))

/-- Python `dict.get(k)` on the field list of a JSON object: `json.loads`
builds a dict in which a duplicated key keeps its last value. -/
def pyLookup (fields : List (String × Json)) (k : String) : Option Json :=
  (fields.reverse.find? (fun f => f.1 = k)).map (fun f => f.2)

/-- Zero-ness of a JSON number lexeme: the mantissa (everything before any
exponent marker) has no nonzero digit, e.g. "0", "-0.00", "0e5". -/
def numLexIsZero (lexeme : String) : Bool :=
  (lexeme.data.takeWhile (fun c => c ≠ 'e' ∧ c ≠ 'E')).all
    (fun c => c = '0' || c = '-' || c = '+' || c = '.')

/-- Python truthiness of a JSON value: `None`, `False`, zero, and empty
strings/lists/dicts are falsy. -/
def jsonFalsy : Json → Bool
  | .null => true
  | .bool b => !b
  | .num lexeme => numLexIsZero lexeme
  | .str s => s = ""
  | .arr elems => elems.isEmpty
  | .obj fields => fields.isEmpty

/-- Field access on a JSON value that is known to be an object
(`none` when the value is not an object or lacks the key). -/
def resultField (j : Json) (k : String) : Option Json :=
  match j with
  | .obj fields => pyLookup fields k
  | _ => none

/-- `Option Json` (a Python value or `None`) rendered back to JSON. -/
def optJson : Option Json → Json
  | none => Json.null
  | some j => j

/-! ## A JSON text parser modelling Python `json.loads`

Recursive descent with fuel; strict per RFC 8259: exact literals, no
trailing input (Python raises "Extra data"), no leading zeros, string
escapes `\" \\ \/ \b \f \n \r \t \uXXXX`, no raw control characters in
strings. Failure stands for `json.JSONDecodeError`. -/

/-- JSON insignificant whitespace. -/
def jsonWsChar (c : Char) : Bool :=
  c = ' ' || c = '\t' || c = '\n' || c = '\r'

def skipJsonWs (l : List Char) : List Char := l.dropWhile jsonWsChar

def hexVal (c : Char) : Option Nat :=
  if '0' ≤ c ∧ c ≤ '9' then some (c.toNat - '0'.toNat)
  else if 'a' ≤ c ∧ c ≤ 'f' then some (c.toNat - 'a'.toNat + 10)
  else if 'A' ≤ c ∧ c ≤ 'F' then some (c.toNat - 'A'.toNat + 10)
  else none

/-- Parse the body of a JSON string after the opening quote. -/
def parseJsonStringBody : Nat → List Char → Option (List Char × List Char)
  | 0, _ => none
  | _ + 1, [] => none
  | fuel + 1, c :: rest =>
    if c = '"' then some ([], rest)
    else if c = '\\' then
      match rest with
      | [] => none
      | e :: rest2 =>
        let decoded : Option (Char × List Char) :=
          if e = '"' then some ('"', rest2)
          else if e = '\\' then some ('\\', rest2)
          else if e = '/' then some ('/', rest2)
          else if e = 'b' then some ('\x08', rest2)
          else if e = 'f' then some ('\x0c', rest2)
          else if e = 'n' then some ('\n', rest2)
          else if e = 'r' then some ('\r', rest2)
          else if e = 't' then some ('\t', rest2)
          else if e = 'u' then
            match rest2 with
            | h1 :: h2 :: h3 :: h4 :: rest3 =>
              match hexVal h1, hexVal h2, hexVal h3, hexVal h4 with
              | some v1, some v2, some v3, some v4 =>
                let n := ((v1 * 16 + v2) * 16 + v3) * 16 + v4
                if h : n.isValidChar then some (Char.ofNatAux n h, rest3) else none
              | _, _, _, _ => none
            | _ => none
          else none
        match decoded with
        | none => none
        | some (ch, rest3) =>
          match parseJsonStringBody fuel rest3 with
          | none => none
          | some (cs, rem) => some (ch :: cs, rem)
    else if c.toNat < 0x20 then none
    else
      match parseJsonStringBody fuel rest with
      | none => none
      | some (cs, rem) => some (c :: cs, rem)

def isJsonDigit (c : Char) : Bool := '0' ≤ c && c ≤ '9'

/-- Parse a JSON number, returning its lexeme. -/
def parseJsonNumber (l : List Char) : Option (List Char × List Char) :=
  let (sign, l1) := match l with
    | '-' :: rest => ([('-' : Char)], rest)
    | _ => ([], l)
  let intPart := l1.takeWhile isJsonDigit
  let l2 := l1.dropWhile isJsonDigit
  if intPart = [] then none
  else if 2 ≤ intPart.length ∧ intPart.headI = '0' then none
  else
    let (fracPart, l3) : List Char × List Char := match l2 with
      | '.' :: rest =>
        let ds := rest.takeWhile isJsonDigit
        if ds = [] then ([], l2) else ('.' :: ds, rest.dropWhile isJsonDigit)
      | _ => ([], l2)
    if l3 ≠ l2 ∧ fracPart = [] then none
    else
      match l3 with
      | e :: rest4 =>
        if e = 'e' ∨ e = 'E' then
          let (esign, rest5) : List Char × List Char := match rest4 with
            | '+' :: r => (['+'], r)
            | '-' :: r => (['-'], r)
            | _ => ([], rest4)
          let eds := rest5.takeWhile isJsonDigit
          if eds = [] then none
          else some (sign ++ intPart ++ fracPart ++ e :: esign ++ eds,
                     rest5.dropWhile isJsonDigit)
        else some (sign ++ intPart ++ fracPart, l3)
      | [] => some (sign ++ intPart ++ fracPart, l3)

mutual

/-- Parse one JSON value from the head of the input. -/
def parseJsonValue : Nat → List Char → Option (Json × List Char)
  | 0, _ => none
  | fuel + 1, l =>
    match skipJsonWs l with
    | [] => none
    | '"' :: rest =>
      match parseJsonStringBody (rest.length + 1) rest with
      | none => none
      | some (cs, rem) => some (.str (String.mk cs), rem)
    | 't' :: 'r' :: 'u' :: 'e' :: rest => some (.bool true, rest)
    | 'f' :: 'a' :: 'l' :: 's' :: 'e' :: rest => some (.bool false, rest)
    | 'n' :: 'u' :: 'l' :: 'l' :: rest => some (.null, rest)
    | '[' :: rest =>
      (match skipJsonWs rest with
       | ']' :: rem => some (.arr [], rem)
       | _ =>
         match parseJsonItems fuel rest with
         | none => none
         | some (elems, rem) => some (.arr elems, rem))
    | '\x7b' :: rest =>
      (match skipJsonWs rest with
       | '\x7d' :: rem => some (.obj [], rem)
       | _ =>
         match parseJsonFields fuel rest with
         | none => none
         | some (fields, rem) => some (.obj fields, rem))
    | l' => (parseJsonNumber l').map (fun p => (.num (String.mk p.1), p.2))

/-- Parse the comma-separated elements of a (non-empty) JSON array, with the
closing bracket. -/
def parseJsonItems : Nat → List Char → Option (List Json × List Char)
  | 0, _ => none
  | fuel + 1, l =>
    match parseJsonValue fuel l with
    | none => none
    | some (v, rem) =>
      match skipJsonWs rem with
      | ',' :: rest =>
        (match parseJsonItems fuel rest with
         | none => none
         | some (vs, rem2) => some (v :: vs, rem2))
      | ']' :: rest => some ([v], rest)
      | _ => none

/-- Parse the comma-separated members of a (non-empty) JSON object, with the
closing brace. -/
def parseJsonFields : Nat → List Char → Option (List (String × Json) × List Char)
  | 0, _ => none
  | fuel + 1, l =>
    match skipJsonWs l with
    | '"' :: rest =>
      (match parseJsonStringBody (rest.length + 1) rest with
       | none => none
       | some (cs, rem) =>
         match skipJsonWs rem with
         | ':' :: rest2 =>
           (match parseJsonValue fuel rest2 with
            | none => none
            | some (v, rem2) =>
              match skipJsonWs rem2 with
              | ',' :: rest3 =>
                (match parseJsonFields fuel rest3 with
                 | none => none
                 | some (fields, rem3) => some ((String.mk cs, v) :: fields, rem3))
              | '\x7d' :: rest3 => some ([(String.mk cs, v)], rest3)
              | _ => none)
         | _ => none)
    | _ => none

end

/-- Python `json.loads`: parse a complete JSON document; anything left over
except whitespace is an error ("Extra data"). -/
def jsonLoads (s : String) : Except Unit Json :=
  match parseJsonValue (2 * s.data.length + 2) s.data with
  | none => .error ()
  | some (v, rem) => if skipJsonWs rem = [] then .ok v else .error ()

/-! ## Python exceptions that the embedded code can raise -/

inductive PyErr where
  | jsonDecodeError
  | keyError
  | indexError
  | typeError
  | attributeError
deriving DecidableEq

/-- Short rendering of an exception, standing for Python `str(e)`. -/
def pyErrMsg : PyErr → String
  | .jsonDecodeError => "JSONDecodeError"
  | .keyError => "KeyError"
  | .indexError => "IndexError"
  | .typeError => "TypeError"
  | .attributeError => "AttributeError"

/-! ## The greedy brace-span search of chat_openshift

`re.search(r"\x7b.*\x7d", llm_response, re.DOTALL)`: with an unanchored
greedy `.*` under DOTALL, a match exists exactly when some closing brace
follows some opening brace, and the matched span runs from the first
opening brace to the last closing brace of the whole text (leftmost start,
then maximal extent) — not to the brace balancing the opener. -/

def braceSpanL (l : List Char) : Option (List Char) :=
  match l.findIdx? (fun c => c = '\x7b') with
  | none => none
  | some i =>
    let t := l.drop i
    match t.reverse.findIdx? (fun c => c = '\x7d') with
    | none => none
    | some r => some (t.take (t.length - r))

/-- The text matched by `re.search(r"\x7b.*\x7d", s, re.DOTALL)`, if any. -/
def braceSpan (s : String) : Option String :=
  (braceSpanL s.data).map String.mk

/-! ## chat_openshift response extraction (observability_openshift_tools.py 205-222)

```python
promql = ""
summary = llm_response
try:
    json_match = re.search(r"\{.*\}", llm_response, re.DOTALL)
    if json_match:
        parsed = json.loads(json_match.group(0))
        promql = (parsed.get("promql") or "").strip()
        summary = (parsed.get("summary") or llm_response).strip()
        if promql and namespace and "namespace=" not in promql:
            ...  # injectNamespace
except json.JSONDecodeError:
    pass
```
-/

/-- Python truthiness of an `Option Json` (a value that may be `None`). -/
def pyTruthyOpt (v : Option Json) : Bool :=
  match v with
  | none => false
  | some j => !jsonFalsy j

/-- `(v or alt).strip()` where `v` came from `dict.get` and `alt` is a
string: a falsy `v` falls through to `alt`; `.strip()` on a non-string
raises `AttributeError` (uncaught by the `except json.JSONDecodeError`). -/
def pyOrStrStrip (v : Option Json) (alt : String) : Except PyErr String :=
  if pyTruthyOpt v = false then .ok (pyStrip alt)
  else
    match v with
    | some (.str s) => .ok (pyStrip s)
    | _ => .error .attributeError

/-- `parsed.get(k)`: `AttributeError` when `parsed` is not a dict. -/
def pyGetAttr (parsed : Json) (k : String) : Except PyErr (Option Json) :=
  match parsed with
  | .obj fields => .ok (pyLookup fields k)
  | _ => .error .attributeError

/-- The promql/summary extraction (with namespace injection) of
`chat_openshift`. An `.error` outcome is an exception that escapes to the
outer `except Exception` of `chat_openshift`. -/
def chatExtract (llm_response ns : String) : Except PyErr (String × String) :=
  match braceSpan llm_response with
  | none => .ok ("", llm_response)
  | some span =>
    match jsonLoads span with
    | .error _ => .ok ("", llm_response)
    | .ok parsed =>
      match pyGetAttr parsed "promql" with
      | .error e => .error e
      | .ok vp =>
        match pyOrStrStrip vp "" with
        | .error e => .error e
        | .ok promql =>
          match pyGetAttr parsed "summary" with
          | .error e => .error e
          | .ok vs =>
            match pyOrStrStrip vs llm_response with
            | .error e => .error e
            | .ok summary => .ok (injectNamespace promql ns, summary)

/-! ## _parse_llm_response (llm_client.py 172-193)

```python
try:
    text = llm_result.get("choices", [{}])[0].get("text", "")
    if text.strip().startswith("{"):
        return json.loads(text.strip())
    else:
        return {"analysis": text, "structured": False}
except (json.JSONDecodeError, KeyError, IndexError):
    return {"analysis": str(llm_result), "structured": False,
            "error": "Failed to parse LLM response"}
```
The completions reply has the documented shape `{choices: [{text}]}`
(external-interface contract), with the key and the list possibly empty. -/

structure LLMChoice where
  text : Option String

structure LLMResult where
  choices : Option (List LLMChoice)

/-- A rendering of the whole result dict, standing for Python
`str(llm_result)` (quoting style not reproduced exactly). -/
def reprLLMResult (r : LLMResult) : String :=
  match r.choices with
  | none => "\x7b\x7d"
  | some cs =>
    "\x7b\"choices\": [" ++
      String.intercalate ", "
        (cs.map (fun c =>
          match c.text with
          | none => "\x7b\x7d"
          | some t => "\x7b\"text\": \"" ++ t ++ "\"\x7d")) ++
      "]\x7d"

/-- `llm_result.get("choices", [{}])[0].get("text", "")`. -/
def extractText (r : LLMResult) : Except PyErr String :=
  match r.choices.getD [⟨none⟩] with
  | [] => .error .indexError
  | c :: _ => .ok (c.text.getD "")

/-- The `try` body of `_parse_llm_response`. -/
def parseLLMBody (r : LLMResult) : Except PyErr Json :=
  match extractText r with
  | .error e => .error e
  | .ok text =>
    if pyStartsWith (pyStrip text) "\x7b" then
      match jsonLoads (pyStrip text) with
      | .ok j => .ok j
      | .error _ => .error .jsonDecodeError
    else
      .ok (Json.obj [("analysis", .str text), ("structured", .bool false)])

/-- The exception classes named by the `except` clause of
`_parse_llm_response`. -/
def caughtByParseExcept : PyErr → Bool
  | .jsonDecodeError => true
  | .keyError => true
  | .indexError => true
  | _ => false

/-- The degraded dict built by the `except` branch of `_parse_llm_response`. -/
def parseErrorDict (r : LLMResult) : Json :=
  Json.obj [("analysis", .str (reprLLMResult r)), ("structured", .bool false),
            ("error", .str "Failed to parse LLM response")]

/-- `_parse_llm_response`: the `try` body guarded by the `except` clause;
an `.error` outcome would be an exception escaping to the caller. -/
def parseLLMResponse (r : LLMResult) : Except PyErr Json :=
  match parseLLMBody r with
  | .ok j => .ok j
  | .error e => if caughtByParseExcept e then .ok (parseErrorDict r) else .error e

/-! ## Relative-duration time windows

`_query_prometheus` (observability_service.py 178-179) and
`get_prometheus_metrics` (observe_ui.py 165-166) both compute

```python
end_time = datetime.now()
start_time = end_time - timedelta(hours=1 if time_range == "1h" else 24)
```

Timestamps are modelled in epoch seconds (`Int`). -/

/-- The `(start_ts, end_ts)` window that the Prometheus query helpers derive
from a relative-duration token. -/
def promWindow (now : Int) (time_range : String) : Int × Int :=
  let end_time := now
  let start_time := end_time - (if time_range = "1h" then 3600 else 24 * 3600)
  (start_time, end_time)

/-- Modelled from the spec: the duration in seconds denoted by a
relative-duration token such as "1h", "24h", "7d" (digits followed by a
unit letter; minutes, hours, days and weeks). No resolver for general
tokens exists in the source — this is the meaning the spec assigns them. -/
def specTokenDurationSeconds (tok : String) : Option Int :=
  let ds := tok.data.dropLast
  if ds ≠ [] ∧ ds.all isJsonDigit then
    let n : Int := Int.ofNat (ds.foldl (fun acc c => acc * 10 + (c.toNat - '0'.toNat)) 0)
    match tok.data.getLast? with
    | some 'm' => some (n * 60)
    | some 'h' => some (n * 3600)
    | some 'd' => some (n * 86400)
    | some 'w' => some (n * 604800)
    | _ => none
  else none

/-! ## Keyword extraction and incident probes

`_extract_keywords` (observability_service.py 220-235):

```python
keywords = []
words = description.lower().split()
relevant_terms = ["cpu", "memory", "latency", "error", "timeout",
                  "slow", "high", "spike", "service", "database"]
for word in words:
    if word in relevant_terms:
        keywords.append(word)
return list(set(keywords))
```

`list(set(...))` has unspecified order in Python; `List.dedup` is used as
the canonical deduplication, and every theorem about the result is stated
order-insensitively (membership, length). -/

def relevant_terms : List String :=
  ["cpu", "memory", "latency", "error", "timeout",
   "slow", "high", "spike", "service", "database"]

/-- `_extract_keywords`. -/
def extract_keywords (description : String) : List String :=
  ((pySplitWs (pyLower description)).filter (fun w => relevant_terms.contains w)).dedup

/-- The keyword → probe-metric dispatch inside `analyze_incident`
(observability_service.py 116-123); note the substring tests:

```python
if "cpu" in keyword.lower(): metric_query = "cpu_usage_percent"
elif "memory" in keyword.lower(): metric_query = "memory_usage_bytes"
elif "latency" in keyword.lower(): metric_query = "http_request_duration_seconds"
else: continue
```
-/
def probe_metric (keyword : String) : Option String :=
  if strContains (pyLower keyword) "cpu" = true then some "cpu_usage_percent"
  else if strContains (pyLower keyword) "memory" = true then some "memory_usage_bytes"
  else if strContains (pyLower keyword) "latency" = true then some "http_request_duration_seconds"
  else none

/-- The probe metric queries `analyze_incident` issues one correlation for,
in keyword order. -/
def probe_queries (keywords : List String) : List String :=
  keywords.filterMap probe_metric

/-! ## Metric-set selection by scope (chat_openshift, 132-146)

```python
openshift_metrics = get_openshift_metrics()
if scope == NAMESPACE_SCOPED and namespace:
    namespace_metrics = get_namespace_specific_metrics(metric_category)
    if not namespace_metrics:
        if metric_category not in openshift_metrics:
            return _resp(f"Invalid metric category: {metric_category}")
        metrics_to_fetch = openshift_metrics[metric_category]
    else:
        metrics_to_fetch = namespace_metrics
else:
    if metric_category not in openshift_metrics:
        return _resp(f"Invalid metric category: {metric_category}")
    metrics_to_fetch = openshift_metrics[metric_category]
```

`get_openshift_metrics` and `get_namespace_specific_metrics` live in
`core.metrics`, which is not among the sources; the catalogs are therefore
parameters (an ordered label → query dict per category). An empty
namespace-specific dict is falsy — degraded fallback to the cluster-wide
catalog. -/

/-- An ordered mapping display-label → query string. -/
abbrev QuerySet := List (String × String)

def CLUSTER_WIDE : String := "cluster_wide"
def NAMESPACE_SCOPED : String := "namespace_scoped"

/-- Assoc-list lookup standing for Python dict indexing (keys unique). -/
def catLookup (catalog : List (String × QuerySet)) (k : String) : Option QuerySet :=
  (catalog.find? (fun e => e.1 = k)).map (fun e => e.2)

/-- The metric-set selection of `chat_openshift`; `.error` is the
"Invalid metric category" early return. -/
def determineMetricsToFetch (openshift_metrics : List (String × QuerySet))
    (namespace_specific : String → QuerySet)
    (scope : String) (namespace_ : Option String) (metric_category : String) :
    Except String QuerySet :=
  if scope = NAMESPACE_SCOPED ∧ namespace_.getD "" ≠ "" then
    let namespace_metrics := namespace_specific metric_category
    if namespace_metrics.isEmpty then
      match catLookup openshift_metrics metric_category with
      | none => .error ("Invalid metric category: " ++ metric_category)
      | some qs => .ok qs
    else .ok namespace_metrics
  else
    match catLookup openshift_metrics metric_category with
    | none => .error ("Invalid metric category: " ++ metric_category)
    | some qs => .ok qs

/-! ## Fetch phase and response of chat_openshift (148-174, 199-234)

```python
metric_dfs = {}
for label, query in metrics_to_fetch.items():
    try:
        df = fetch_openshift_metrics(query, start, end, namespace_for_query)
        metric_dfs[label] = df
    except Exception:
        metric_dfs[label] = pd.DataFrame()
has_any_data = any(isinstance(df, pd.DataFrame) and not df.empty
                   for df in metric_dfs.values())
if not has_any_data:
    ...  # fixed no-data payload, no LLM call
...
llm_response = summarize_with_llm(prompt, ...)
...  # chatExtract, then payload
```

`fetch_openshift_metrics` (core.metrics, not among the sources) is an
oracle returning a data frame (a row list) or raising; the LLM reply for
the single possible `summarize_with_llm` call is likewise an oracle value,
and the result carries how many LLM calls were made. -/

def noDataSummary : String :=
  "No metric data found for the selected category/scope in the time window. Try a broader window (e.g., last 6h) or a different category."

structure ChatPayload where
  metric_category : String
  scope : String
  namespace_ : String
  start_ts : Int
  end_ts : Int
  promql : String
  summary : String

inductive ChatResult where
  | resp (payload : ChatPayload) (llmCalls : Nat)
  | errorResp (llmCalls : Nat)

/-- The fetch-aggregate-respond phase of `chat_openshift`, after metric-set
selection. `fetch` gives, per query, the frame rows or a raised exception;
`llm_response` is the reply the one possible LLM call would return. -/
def chatFetchAndRespond {α : Type} (fetch : String → Except Unit (List α))
    (llm_response : String) (metric_category scope : String)
    (namespace_ : Option String) (start_ts end_ts : Int)
    (metrics_to_fetch : QuerySet) : ChatResult :=
  let metric_dfs := metrics_to_fetch.map (fun lq =>
    (lq.1, match fetch lq.2 with
           | .ok df => df
           | .error _ => ([] : List α)))
  let has_any_data := metric_dfs.any (fun d => !d.2.isEmpty)
  if has_any_data = false then
    .resp ⟨metric_category, scope, namespace_.getD "", start_ts, end_ts,
           "", noDataSummary⟩ 0
  else
    match chatExtract llm_response (namespace_.getD "") with
    | .ok (promql, summary) =>
      .resp ⟨metric_category, scope, namespace_.getD "", start_ts, end_ts,
             promql, summary⟩ 1
    | .error _ => .errorResp 1

/-! ## Backend call outcomes (observability_service.py)

`_query_korrel8r` (145-173), `_query_prometheus` (175-201) and
`_get_tempo_trace` (203-218) share the same shape: a 200 response is
parsed as JSON and returned; any non-200 status, unparsable 200 body, or
transport/timeout exception yields `None`. -/

inductive HttpOutcome where
  | ok (body : Json)
  | okUnparsable
  | httpError (status : Nat)
  | transportError

/-- The 200-with-parsable-body filter shared by the three query helpers. -/
def httpJsonOrNone : HttpOutcome → Option Json
  | .ok body => some body
  | .okUnparsable => none
  | .httpError _ => none
  | .transportError => none

def query_korrel8r (o : HttpOutcome) : Option Json := httpJsonOrNone o
def query_prometheus (o : HttpOutcome) : Option Json := httpJsonOrNone o
def get_tempo_trace (o : HttpOutcome) : Option Json := httpJsonOrNone o

/-! ## correlate_metric_to_traces (observability_service.py 17-54)

```python
correlations = await self._query_korrel8r(...)
if not correlations:
    return {"error": "No correlations found"}
metric_data = await self._query_prometheus(session, metric_query, time_range)
traces = []
for correlation in correlations.get("results", []):
    trace_id = correlation.get("trace_id")
    if trace_id:
        trace_data = await self._get_tempo_trace(session, trace_id)
        if trace_data:
            traces.append(trace_data)
return {"metric_query": ..., "metric_data": ..., "correlations": ...,
        "related_traces": traces, "analysis_timestamp": ...}
```

Each backend call is an oracle with an associated duration; because every
call in the body is `await`ed before the next begins, elapsed time is
accumulated sequentially. An exception escaping the body is caught by the
outer `except Exception`, which returns a "Correlation failed" dict. -/

/-- The environment of one `correlate_metric_to_traces` request: the
outcome (and duration) each backend call would have. -/
structure MTEnv where
  metric_query : String
  time_range : String
  korrel : HttpOutcome
  korrelDur : Nat
  prom : HttpOutcome
  promDur : Nat
  tempo : Json → HttpOutcome
  tempoDur : Json → Nat
  nowIso : String

def errNoCorrelations : Json :=
  Json.obj [("error", Json.str "No correlations found")]

def corrFailed (e : PyErr) : Json :=
  Json.obj [("error", Json.str ("Correlation failed: " ++ pyErrMsg e))]

/-- `correlations.get("results", [])` followed by `for correlation in ...`:
produces the element list when the value is a list; an empty dict or empty
string iterates to nothing; any other non-list value raises once the loop
body touches the first element. -/
def pyGetResults (correlations : Json) : Except PyErr (List Json) :=
  match correlations with
  | .obj fields =>
    match (pyLookup fields "results").getD (Json.arr []) with
    | .arr elems => .ok elems
    | .obj [] => .ok []
    | .str "" => .ok []
    | .obj (_ :: _) => .error .attributeError
    | .str _ => .error .attributeError
    | _ => .error .typeError
  | _ => .error .attributeError

/-- The per-edge trace-fetch loop of `correlate_metric_to_traces`;
returns (outcome, tempo calls made, time spent in tempo calls). -/
def fetchTracesLoop (env : MTEnv) : List Json → Except PyErr (List Json) × Nat × Nat
  | [] => (.ok [], 0, 0)
  | correlation :: rest =>
    match pyGetAttr correlation "trace_id" with
    | .error e => (.error e, 0, 0)
    | .ok trace_id =>
      if pyTruthyOpt trace_id = true then
        let tid := trace_id.getD Json.null
        let trace_data := get_tempo_trace (env.tempo tid)
        let (r, calls, dur) := fetchTracesLoop env rest
        let r2 : Except PyErr (List Json) :=
          match r, trace_data with
          | .error e, _ => .error e
          | .ok traces, some v =>
            if jsonFalsy v = true then .ok traces else .ok (v :: traces)
          | .ok traces, none => .ok traces
        (r2, calls + 1, env.tempoDur tid + dur)
      else
        fetchTracesLoop env rest

structure CorrelateOut where
  result : Json
  promCalls : Nat
  tempoCalls : Nat
  elapsed : Nat

/-- `correlate_metric_to_traces`. -/
def correlate_metric_to_traces (env : MTEnv) : CorrelateOut :=
  match query_korrel8r env.korrel with
  | none => ⟨errNoCorrelations, 0, 0, env.korrelDur⟩
  | some correlations =>
    if jsonFalsy correlations = true then
      ⟨errNoCorrelations, 0, 0, env.korrelDur⟩
    else
      let metric_data := query_prometheus env.prom
      match pyGetResults correlations with
      | .error e => ⟨corrFailed e, 1, 0, env.korrelDur + env.promDur⟩
      | .ok results =>
        match fetchTracesLoop env results with
        | (.error e, calls, dur) =>
          ⟨corrFailed e, 1, calls, env.korrelDur + env.promDur + dur⟩
        | (.ok traces, calls, dur) =>
          ⟨Json.obj [("metric_query", Json.str env.metric_query),
                     ("metric_data", optJson metric_data),
                     ("correlations", correlations),
                     ("related_traces", Json.arr traces),
                     ("analysis_timestamp", Json.str env.nowIso)],
           1, calls, env.korrelDur + env.promDur + dur⟩

/-! ## correlate_trace_to_metrics (observability_service.py 56-99)

Same four-step shape with the backend roles swapped: the original trace is
fetched once, then one Prometheus fetch per edge carrying a truthy
`metric_name`; a truthy result is appended as
`{"metric_name": ..., "data": ..., "correlation_rule": correlation.get("rule")}`. -/

structure TMEnv where
  trace_id : String
  korrel : HttpOutcome
  korrelDur : Nat
  tempo : HttpOutcome
  tempoDur : Nat
  prom : Json → HttpOutcome
  promDur : Json → Nat
  nowIso : String

/-- `correlation.get("rule")` on an edge already known to be a dict. -/
def ruleOf (correlation : Json) : Json :=
  match correlation with
  | .obj fields => (pyLookup fields "rule").getD Json.null
  | _ => Json.null

/-- The per-edge metric-fetch loop of `correlate_trace_to_metrics`;
returns (outcome, prometheus calls made, time spent in prometheus calls). -/
def fetchMetricsLoop (env : TMEnv) : List Json → Except PyErr (List Json) × Nat × Nat
  | [] => (.ok [], 0, 0)
  | correlation :: rest =>
    match pyGetAttr correlation "metric_name" with
    | .error e => (.error e, 0, 0)
    | .ok metric_name =>
      if pyTruthyOpt metric_name = true then
        let mn := metric_name.getD Json.null
        let metric_data := query_prometheus (env.prom mn)
        let (r, calls, dur) := fetchMetricsLoop env rest
        let r2 : Except PyErr (List Json) :=
          match r, metric_data with
          | .error e, _ => .error e
          | .ok metrics, some v =>
            if jsonFalsy v = true then .ok metrics
            else .ok (Json.obj [("metric_name", mn), ("data", v),
                                ("correlation_rule", ruleOf correlation)] :: metrics)
          | .ok metrics, none => .ok metrics
        (r2, calls + 1, env.promDur mn + dur)
      else
        fetchMetricsLoop env rest

/-- `correlate_trace_to_metrics`. In `CorrelateOut`, `promCalls` counts
`_query_prometheus` calls and `tempoCalls` counts `_get_tempo_trace` calls,
as for the metric→traces direction. -/
def correlate_trace_to_metrics (env : TMEnv) : CorrelateOut :=
  match query_korrel8r env.korrel with
  | none => ⟨errNoCorrelations, 0, 0, env.korrelDur⟩
  | some correlations =>
    if jsonFalsy correlations = true then
      ⟨errNoCorrelations, 0, 0, env.korrelDur⟩
    else
      let trace_data := get_tempo_trace env.tempo
      match pyGetResults correlations with
      | .error e => ⟨corrFailed e, 0, 1, env.korrelDur + env.tempoDur⟩
      | .ok results =>
        match fetchMetricsLoop env results with
        | (.error e, calls, dur) =>
          ⟨corrFailed e, calls, 1, env.korrelDur + env.tempoDur + dur⟩
        | (.ok metrics, calls, dur) =>
          ⟨Json.obj [("trace_id", Json.str env.trace_id),
                     ("trace_data", optJson trace_data),
                     ("correlations", correlations),
                     ("related_metrics", Json.arr metrics),
                     ("analysis_timestamp", Json.str env.nowIso)],
           calls, 1, env.korrelDur + env.tempoDur + dur⟩

/-! ## Per-edge characterizations of the fetch loops -/

/-- Whether an edge triggers a secondary fetch (it has a truthy target id). -/
def edgeTraceCalled (correlation : Json) : Bool :=
  match correlation with
  | .obj fields => pyTruthyOpt (pyLookup fields "trace_id")
  | _ => false

/-- The evidence entry an edge contributes in `correlate_metric_to_traces`:
the fetched trace when the fetch succeeded with truthy data, `none`
otherwise (failed fetch, falsy data, or no truthy `trace_id`). -/
def edgeTraceSuccess (env : MTEnv) (correlation : Json) : Option Json :=
  match correlation with
  | .obj fields =>
    let trace_id := pyLookup fields "trace_id"
    if pyTruthyOpt trace_id = true then
      match get_tempo_trace (env.tempo (trace_id.getD Json.null)) with
      | some v => if jsonFalsy v = true then none else some v
      | none => none
    else none
  | _ => none

/-- Time spent on an edge's secondary fetch in `correlate_metric_to_traces`. -/
def tempoDurOf (env : MTEnv) (correlation : Json) : Nat :=
  match correlation with
  | .obj fields =>
    let trace_id := pyLookup fields "trace_id"
    if pyTruthyOpt trace_id = true then env.tempoDur (trace_id.getD Json.null) else 0
  | _ => 0

/-- Whether an edge triggers a secondary fetch in
`correlate_trace_to_metrics` (truthy `metric_name`). -/
def edgeMetricCalled (correlation : Json) : Bool :=
  match correlation with
  | .obj fields => pyTruthyOpt (pyLookup fields "metric_name")
  | _ => false

/-- The evidence entry an edge contributes in `correlate_trace_to_metrics`. -/
def edgeMetricSuccess (env : TMEnv) (correlation : Json) : Option Json :=
  match correlation with
  | .obj fields =>
    let metric_name := pyLookup fields "metric_name"
    if pyTruthyOpt metric_name = true then
      match query_prometheus (env.prom (metric_name.getD Json.null)) with
      | some v =>
        if jsonFalsy v = true then none
        else some (Json.obj [("metric_name", metric_name.getD Json.null),
                             ("data", v),
                             ("correlation_rule", ruleOf correlation)])
      | none => none
    else none
  | _ => none

/-- Time spent on an edge's secondary fetch in `correlate_trace_to_metrics`. -/
def promDurOf (env : TMEnv) (correlation : Json) : Nat :=
  match correlation with
  | .obj fields =>
    let metric_name := pyLookup fields "metric_name"
    if pyTruthyOpt metric_name = true then env.promDur (metric_name.getD Json.null) else 0
  | _ => 0

theorem fetchTracesLoop_eq (env : MTEnv) (l : List Json)
    (h : ∀ e ∈ l, ∃ fs, e = Json.obj fs) :
    fetchTracesLoop env l =
      (.ok (l.filterMap (edgeTraceSuccess env)),
       (l.filter edgeTraceCalled).length,
       (l.map (tempoDurOf env)).sum) := by
  induction l with
  | nil => rfl
  | cons c rest ih =>
    obtain ⟨fs, rfl⟩ := h c (List.mem_cons_self c rest)
    have ihr := ih (fun e he => h e (List.mem_cons_of_mem _ he))
    by_cases ht : pyTruthyOpt (pyLookup fs "trace_id") = true
    · simp only [fetchTracesLoop, pyGetAttr, ht, if_pos, ihr, edgeTraceSuccess,
        edgeTraceCalled, tempoDurOf, List.filterMap_cons, List.filter_cons,
        List.map_cons, List.sum_cons, if_true]
      cases hv : get_tempo_trace (env.tempo ((pyLookup fs "trace_id").getD Json.null)) with
      | none => simp [hv]
      | some v =>
        by_cases hf : jsonFalsy v = true
        · simp [hv, hf]
        · simp [hv, hf]
    · simp only [fetchTracesLoop, pyGetAttr, ht, if_neg, ihr, edgeTraceSuccess,
        edgeTraceCalled, tempoDurOf, List.filterMap_cons, List.filter_cons,
        List.map_cons, List.sum_cons]
      simp [ht, Bool.not_eq_true] at *

theorem fetchMetricsLoop_eq (env : TMEnv) (l : List Json)
    (h : ∀ e ∈ l, ∃ fs, e = Json.obj fs) :
    fetchMetricsLoop env l =
      (.ok (l.filterMap (edgeMetricSuccess env)),
       (l.filter edgeMetricCalled).length,
       (l.map (promDurOf env)).sum) := by
  induction l with
  | nil => rfl
  | cons c rest ih =>
    obtain ⟨fs, rfl⟩ := h c (List.mem_cons_self c rest)
    have ihr := ih (fun e he => h e (List.mem_cons_of_mem _ he))
    by_cases ht : pyTruthyOpt (pyLookup fs "metric_name") = true
    · simp only [fetchMetricsLoop, pyGetAttr, ht, if_pos, ihr, edgeMetricSuccess,
        edgeMetricCalled, promDurOf, List.filterMap_cons, List.filter_cons,
        List.map_cons, List.sum_cons, if_true]
      cases hv : query_prometheus (env.prom ((pyLookup fs "metric_name").getD Json.null)) with
      | none => simp [hv]
      | some v =>
        by_cases hf : jsonFalsy v = true
        · simp [hv, hf]
        · simp [hv, hf]
    · simp only [fetchMetricsLoop, pyGetAttr, ht, if_neg, ihr, edgeMetricSuccess,
        edgeMetricCalled, promDurOf, List.filterMap_cons, List.filter_cons,
        List.map_cons, List.sum_cons]
      simp [ht, Bool.not_eq_true] at *

/-! ## Claim C1 — evidence aggregation -/

/-- A concrete three-edge scenario for `correlate_metric_to_traces` in
which the secondary fetch for edge 2 fails at the transport level while
edges 1 and 3 succeed. -/
def mtEdge (tid : String) : Json := Json.obj [("trace_id", Json.str tid)]

def envThreeEdges : MTEnv where
  metric_query := "cpu_usage_percent"
  time_range := "1h"
  korrel := .ok (Json.obj [("results",
    Json.arr [mtEdge "t1", mtEdge "t2", mtEdge "t3"])])
  korrelDur := 0
  prom := .ok (Json.obj [("status", Json.str "success")])
  promDur := 0
  tempo := fun j =>
    match j with
    | .str s => if s = "t2" then .transportError
                else .ok (Json.obj [("traceID", Json.str s)])
    | _ => .transportError
  tempoDur := fun _ => 0
  nowIso := "2026-01-01T00:00:00"

/-- C1 counterexample: with 3 edges returned by the graph backend and the
secondary fetch for edge 2 failing, the aggregated `related_traces` list
has only 2 entries — the failed fetch is silently omitted, with no
failure/"no data" marker entry, so the bundle does not have N = 3 entries. -/
theorem c1_counterexample :
    resultField (correlate_metric_to_traces envThreeEdges).result "related_traces"
      = some (Json.arr [Json.obj [("traceID", Json.str "t1")],
                        Json.obj [("traceID", Json.str "t3")]]) ∧
    [Json.obj [("traceID", Json.str "t1")],
     Json.obj [("traceID", Json.str "t3")]].length ≠ 3 := by
  exact ⟨rfl, by decide⟩

/-- C1 (amended): for both correlation directions, when the graph call
succeeds with a truthy dict whose `results` are edge dicts, the related
evidence list contains — in the edge order returned by the graph backend —
exactly the secondary fetches that succeeded with truthy data; edges whose
fetch failed, returned falsy data, or lacked a truthy target id are
omitted without any marker entry. -/
theorem c1_evidence_is_ordered_successes :
    (∀ (env : MTEnv) (c : Json) (results : List Json),
      env.korrel = .ok c → jsonFalsy c = false → pyGetResults c = .ok results →
      (∀ e ∈ results, ∃ fs, e = Json.obj fs) →
      correlate_metric_to_traces env =
        ⟨Json.obj [("metric_query", Json.str env.metric_query),
                   ("metric_data", optJson (query_prometheus env.prom)),
                   ("correlations", c),
                   ("related_traces",
                    Json.arr (results.filterMap (edgeTraceSuccess env))),
                   ("analysis_timestamp", Json.str env.nowIso)],
         1, (results.filter edgeTraceCalled).length,
         env.korrelDur + env.promDur + (results.map (tempoDurOf env)).sum⟩) ∧
    (∀ (env : TMEnv) (c : Json) (results : List Json),
      env.korrel = .ok c → jsonFalsy c = false → pyGetResults c = .ok results →
      (∀ e ∈ results, ∃ fs, e = Json.obj fs) →
      correlate_trace_to_metrics env =
        ⟨Json.obj [("trace_id", Json.str env.trace_id),
                   ("trace_data", optJson (get_tempo_trace env.tempo)),
                   ("correlations", c),
                   ("related_metrics",
                    Json.arr (results.filterMap (edgeMetricSuccess env))),
                   ("analysis_timestamp", Json.str env.nowIso)],
         (results.filter edgeMetricCalled).length, 1,
         env.korrelDur + env.tempoDur + (results.map (promDurOf env)).sum⟩) := by
  constructor
  · intro env c results hk hfalsy hres hobj
    unfold correlate_metric_to_traces
    rw [hk]
    simp only [query_korrel8r, httpJsonOrNone, hfalsy, hres,
      fetchTracesLoop_eq env results hobj]
    simp
  · intro env c results hk hfalsy hres hobj
    unfold correlate_trace_to_metrics
    rw [hk]
    simp only [query_korrel8r, httpJsonOrNone, hfalsy, hres,
      fetchMetricsLoop_eq env results hobj]
    simp

/-- Witness for `c1_evidence_is_ordered_successes` at the concrete
three-edge scenario. -/
theorem c1_evidence_is_ordered_successes_witness :
    correlate_metric_to_traces envThreeEdges =
      ⟨Json.obj [("metric_query", Json.str "cpu_usage_percent"),
                 ("metric_data", Json.obj [("status", Json.str "success")]),
                 ("correlations", Json.obj [("results",
                    Json.arr [mtEdge "t1", mtEdge "t2", mtEdge "t3"])]),
                 ("related_traces",
                  Json.arr [Json.obj [("traceID", Json.str "t1")],
                            Json.obj [("traceID", Json.str "t3")]]),
                 ("analysis_timestamp", Json.str "2026-01-01T00:00:00")],
       1, 3, 0⟩ := by
  have h := c1_evidence_is_ordered_successes.1 envThreeEdges
    (Json.obj [("results", Json.arr [mtEdge "t1", mtEdge "t2", mtEdge "t3"])])
    [mtEdge "t1", mtEdge "t2", mtEdge "t3"]
    rfl rfl rfl
    (by intro e he
        fin_cases he
        · exact ⟨[("trace_id", Json.str "t1")], rfl⟩
        · exact ⟨[("trace_id", Json.str "t2")], rfl⟩
        · exact ⟨[("trace_id", Json.str "t3")], rfl⟩)
  exact h.trans (by rfl)

/-! ## Claim C3 — primary graph failure short-circuits -/

/-- The failure modes of the primary correlation-graph call named by the
claim: transport error, non-200 status, or unparsable reply. -/
def korrelFailedOutcome (o : HttpOutcome) : Prop :=
  o = .transportError ∨ o = .okUnparsable ∨ ∃ status, o = .httpError status

/-- C3: for both correlation directions, when the primary korrel8r call
fails (transport error, non-200 status, or unparsable reply) the function
returns the dict with error "No correlations found" and performs zero
secondary Prometheus or Tempo fetches. -/
theorem c3_graph_failure_short_circuits :
    (∀ env : MTEnv, korrelFailedOutcome env.korrel →
      correlate_metric_to_traces env = ⟨errNoCorrelations, 0, 0, env.korrelDur⟩) ∧
    (∀ env : TMEnv, korrelFailedOutcome env.korrel →
      correlate_trace_to_metrics env = ⟨errNoCorrelations, 0, 0, env.korrelDur⟩) := by
  constructor
  · intro env h
    unfold correlate_metric_to_traces
    rcases h with h | h | ⟨status, h⟩ <;> rw [h] <;> rfl
  · intro env h
    unfold correlate_trace_to_metrics
    rcases h with h | h | ⟨status, h⟩ <;> rw [h] <;> rfl

def envGraphDown : MTEnv where
  metric_query := "cpu_usage_percent"
  time_range := "1h"
  korrel := .httpError 503
  korrelDur := 5
  prom := .ok (Json.obj [("status", Json.str "success")])
  promDur := 0
  tempo := fun _ => .ok (Json.obj [("traceID", Json.str "t")])
  tempoDur := fun _ => 0
  nowIso := "2026-01-01T00:00:00"

/-- Witness for `c3_graph_failure_short_circuits`: a 503 from korrel8r. -/
theorem c3_graph_failure_short_circuits_witness :
    correlate_metric_to_traces envGraphDown = ⟨errNoCorrelations, 0, 0, 5⟩ :=
  c3_graph_failure_short_circuits.1 envGraphDown (Or.inr (Or.inr ⟨503, rfl⟩))

/-! ## Claim C9 — fetches are sequential, latency is the sum -/

/-- A two-edge scenario with secondary-fetch durations 3 and 4 (both
succeed), zero time on the graph and primary-metric calls. -/
def envTwoTimedEdges : MTEnv where
  metric_query := "cpu_usage_percent"
  time_range := "1h"
  korrel := .ok (Json.obj [("results", Json.arr [mtEdge "t1", mtEdge "t2"])])
  korrelDur := 0
  prom := .ok (Json.obj [("status", Json.str "success")])
  promDur := 0
  tempo := fun j =>
    match j with
    | .str s => .ok (Json.obj [("traceID", Json.str s)])
    | _ => .transportError
  tempoDur := fun j =>
    match j with
    | .str s => if s = "t1" then 3 else 4
    | _ => 0
  nowIso := "2026-01-01T00:00:00"

/-- C9 counterexample: with two edges whose fetches take 3 and 4 time
units, the request's elapsed time is 7 — the sum — and is not bounded by
the slowest single fetch (4), refuting concurrent execution. -/
theorem c9_counterexample :
    (correlate_metric_to_traces envTwoTimedEdges).elapsed = 3 + 4 ∧
    ¬((correlate_metric_to_traces envTwoTimedEdges).elapsed ≤ 4) := by
  exact ⟨rfl, by decide⟩

/-- C9 (amended): each per-edge secondary fetch is awaited before the next
is issued, so end-to-end elapsed time is the graph-call duration plus the
primary-metric-call duration plus the SUM of the per-edge fetch durations
(not their maximum). -/
theorem c9_sequential_latency :
    ∀ (env : MTEnv) (c : Json) (results : List Json),
      env.korrel = .ok c → jsonFalsy c = false → pyGetResults c = .ok results →
      (∀ e ∈ results, ∃ fs, e = Json.obj fs) →
      (correlate_metric_to_traces env).elapsed =
        env.korrelDur + env.promDur + (results.map (tempoDurOf env)).sum := by
  intro env c results hk hfalsy hres hobj
  unfold correlate_metric_to_traces
  rw [hk]
  simp only [query_korrel8r, httpJsonOrNone, hfalsy, hres,
    fetchTracesLoop_eq env results hobj]
  simp

/-- Witness for `c9_sequential_latency` at the two-edge timed scenario. -/
theorem c9_sequential_latency_witness :
    (correlate_metric_to_traces envTwoTimedEdges).elapsed = 0 + 0 + (3 + (4 + 0)) := by
  have h := c9_sequential_latency envTwoTimedEdges
    (Json.obj [("results", Json.arr [mtEdge "t1", mtEdge "t2"])])
    [mtEdge "t1", mtEdge "t2"]
    rfl rfl rfl
    (by intro e he
        fin_cases he
        · exact ⟨[("trace_id", Json.str "t1")], rfl⟩
        · exact ⟨[("trace_id", Json.str "t2")], rfl⟩)
  exact h.trans (by rfl)

/-! ## Claim C2 — relative-duration windows -/

/-- C2 counterexample: the token "7d" resolves to a window of 86400
seconds (24 hours), not the 604800 seconds its duration denotes — only
"1h" is special-cased; every other token falls to 24 hours. -/
theorem c2_counterexample :
    (promWindow 1700000000 "7d").2 - (promWindow 1700000000 "7d").1 = 86400 ∧
    specTokenDurationSeconds "7d" = some 604800 ∧
    (86400 : Int) ≠ 604800 := by
  refine ⟨by decide, by decide, by decide⟩

/-- C2 (amended): for every relative-duration token, `end_ts = now` (hence
`end_ts ≤ now`), and `end_ts - start_ts` is 3600 seconds when the token is
"1h" and 86400 seconds for every other token — so only "1h" and "24h"
resolve to the duration the token denotes. -/
theorem c2_window_rule :
    ∀ (now : Int) (time_range : String),
      (promWindow now time_range).2 = now ∧
      (promWindow now time_range).2 - (promWindow now time_range).1 =
        (if time_range = "1h" then 3600 else 86400) ∧
      (promWindow now time_range).2 ≤ now := by
  intro now time_range
  unfold promWindow
  refine ⟨rfl, ?_, le_refl now⟩
  by_cases h : time_range = "1h" <;> simp [h]

/-! ## Claim C4 — locating JSON in the LLM reply -/

def exampleReply : String :=
  "noise noise \x7b\"promql\": \"up\", \"summary\": \"ok\"\x7d trailing"

def exampleLLMResult : LLMResult := ⟨some [⟨some exampleReply⟩]⟩

/-- C4 counterexample: `_parse_llm_response` (llm_client.py) attempts JSON
parsing only when the stripped reply begins with an opening brace; on the
claim's own example — a JSON object embedded mid-text — it performs no
span search at all and returns the raw text unparsed, extracting no
`promql`. -/
theorem c4_counterexample :
    parseLLMResponse exampleLLMResult =
      .ok (Json.obj [("analysis", Json.str exampleReply),
                     ("structured", Json.bool false)]) ∧
    resultField (Json.obj [("analysis", Json.str exampleReply),
                           ("structured", Json.bool false)]) "promql" = none := by
  exact ⟨rfl, rfl⟩

/-- C4 (amended): `chat_openshift` searches `re.search(r"\x7b.*\x7d", ...)`
— a greedy span from the first opening brace to the last closing brace,
not the first balanced span — and parses it as JSON, extracting `promql`
and `summary` with safe defaults for missing keys (empty string and the
stripped raw reply); it extracts `promql="up"`, `summary="ok"` on the
example because no brace follows the object, while a trailing brace makes
the greedy span unparsable and both defaults are returned. Meanwhile
`_parse_llm_response` in llm_client.py parses only replies that begin with
a brace and returns the raw text otherwise. -/
theorem c4_greedy_span_extraction :
    chatExtract exampleReply "" = .ok ("up", "ok") ∧
    chatExtract (exampleReply ++ " tail\x7d") "" =
      .ok ("", exampleReply ++ " tail\x7d") ∧
    parseLLMResponse exampleLLMResult =
      .ok (Json.obj [("analysis", Json.str exampleReply),
                     ("structured", Json.bool false)]) ∧
    (∀ s ns span parsed,
      braceSpan s = some span → jsonLoads span = .ok parsed →
      pyGetAttr parsed "promql" = .ok none → pyGetAttr parsed "summary" = .ok none →
      chatExtract s ns = .ok ("", pyStrip s)) := by
  refine ⟨rfl, rfl, rfl, ?_⟩
  intro s ns span parsed h1 h2 h3 h4
  have hinj : injectNamespace "" ns = "" := by
    unfold injectNamespace
    rw [if_neg]
    intro hg
    exact hg.1 rfl
  simp only [chatExtract, h1, h2, h3, h4]
  show Except.ok (injectNamespace "" ns, pyStrip s) = Except.ok ("", pyStrip s)
  rw [hinj]

def smallObjReply : String := "\x7b\"a\": \"b\"\x7d"

/-- Witness for `c4_greedy_span_extraction` at a reply whose JSON object
has neither expected key: both safe defaults are used. -/
theorem c4_greedy_span_extraction_witness :
    chatExtract smallObjReply "ns1" = .ok ("", pyStrip smallObjReply) := by
  exact c4_greedy_span_extraction.2.2.2 smallObjReply "ns1" smallObjReply
    (Json.obj [("a", Json.str "b")]) rfl rfl rfl rfl

/-! ## Claim C6 — keyword extraction and probes -/

/-- C6 counterexample: "high" is itself in the fixed vocabulary, so the
description "High cpu and memory usage" yields the keyword set
containing "high" as well — not exactly the claimed set of cpu and memory. -/
theorem c6_counterexample :
    "high" ∈ extract_keywords "High cpu and memory usage" ∧
    "high" ∉ (["cpu", "memory"] : List String) := by
  exact ⟨by decide, by decide⟩

/-- C6 (amended): keyword extraction returns the deduplicated intersection
of the description's lowercase token set with the fixed vocabulary; the
description "High cpu and memory usage" yields exactly the keywords high,
cpu and memory (set-wise), and exactly two of them map to probe metrics
(cpu and memory), so incident analysis triggers exactly two probe
correlations. -/
theorem c6_keywords_and_probes :
    (∀ d w, w ∈ extract_keywords d ↔
      w ∈ pySplitWs (pyLower d) ∧ w ∈ relevant_terms) ∧
    (∀ d, (extract_keywords d).Nodup) ∧
    extract_keywords "High cpu and memory usage" = ["high", "cpu", "memory"] ∧
    probe_queries (extract_keywords "High cpu and memory usage") =
      ["cpu_usage_percent", "memory_usage_bytes"] := by
  refine ⟨?_, ?_, by decide, by decide⟩
  · intro d w
    simp [extract_keywords, List.mem_dedup, List.mem_filter, List.elem_iff]
  · intro d
    exact List.nodup_dedup _

/-! ## Claim C7 — namespace-scoped catalog lookup with fallback -/

/-- C7: for a namespace-scoped request with a non-empty namespace, the
namespace-specific query set is used when one exists for the category;
otherwise the cluster-wide entry for that category is used as a degraded
fallback; only when the category is in neither catalog does the lookup
fail with the invalid-category error. (`get_openshift_metrics` and
`get_namespace_specific_metrics` live in core.metrics, outside the
provided sources, so the catalogs are universally quantified here.) -/
theorem c7_scope_lookup_fallback :
    ∀ (openshift_metrics : List (String × QuerySet))
      (namespace_specific : String → QuerySet) (ns metric_category : String),
      ns ≠ "" →
      (namespace_specific metric_category ≠ [] →
        determineMetricsToFetch openshift_metrics namespace_specific
            NAMESPACE_SCOPED (some ns) metric_category
          = .ok (namespace_specific metric_category)) ∧
      (∀ qs, namespace_specific metric_category = [] →
        catLookup openshift_metrics metric_category = some qs →
        determineMetricsToFetch openshift_metrics namespace_specific
            NAMESPACE_SCOPED (some ns) metric_category = .ok qs) ∧
      (namespace_specific metric_category = [] →
        catLookup openshift_metrics metric_category = none →
        determineMetricsToFetch openshift_metrics namespace_specific
            NAMESPACE_SCOPED (some ns) metric_category
          = .error ("Invalid metric category: " ++ metric_category)) := by
  intro om nsf ns cat hns
  have hguard : NAMESPACE_SCOPED = NAMESPACE_SCOPED ∧
      (some ns : Option String).getD "" ≠ "" := ⟨rfl, hns⟩
  refine ⟨?_, ?_, ?_⟩
  · intro hne
    unfold determineMetricsToFetch
    rw [if_pos hguard, if_neg]
    simp [List.isEmpty_iff, hne]
  · intro qs hempty hlk
    unfold determineMetricsToFetch
    rw [if_pos hguard, if_pos (by simp [List.isEmpty_iff, hempty]), hlk]
  · intro hempty hlk
    unfold determineMetricsToFetch
    rw [if_pos hguard, if_pos (by simp [List.isEmpty_iff, hempty]), hlk]

/-- Witness for `c7_scope_lookup_fallback`: a category with no
namespace-specific entry falls back to the cluster-wide query set. -/
theorem c7_scope_lookup_fallback_witness :
    determineMetricsToFetch [("Fleet Overview", [("Total Pods Running", "q")])]
        (fun _ => []) NAMESPACE_SCOPED (some "team-a") "Fleet Overview"
      = .ok [("Total Pods Running", "q")] := by
  exact (c7_scope_lookup_fallback [("Fleet Overview", [("Total Pods Running", "q")])]
    (fun _ => []) "team-a" "Fleet Overview" (by decide)).2.1
    [("Total Pods Running", "q")] rfl rfl

/-! ## Claim C8 — defensive parsing of the LLM completion -/

/-- C8: for every completion result, `_parse_llm_response` raises nothing
to its caller (every exception its body can raise is in the caught set),
and when the extracted text does not parse as JSON the result is degraded:
`structured=false` with `analysis` equal to the raw text when the text
does not begin with a brace, or the raw result rendering plus the explicit
parse-error marker when a brace-led text fails to decode. -/
theorem c8_parse_llm_defensive :
    ∀ r : LLMResult,
      (∃ j, parseLLMResponse r = Except.ok j) ∧
      (∀ e, parseLLMBody r = .error e → caughtByParseExcept e = true) ∧
      (∀ t, extractText r = .ok t → jsonLoads (pyStrip t) = .error () →
        parseLLMResponse r = .ok
          (if pyStartsWith (pyStrip t) "\x7b" = true
           then parseErrorDict r
           else Json.obj [("analysis", Json.str t),
                          ("structured", Json.bool false)])) := by
  intro r
  have hcaught : ∀ e, parseLLMBody r = .error e → caughtByParseExcept e = true := by
    intro e he
    unfold parseLLMBody at he
    cases hx : extractText r with
    | error e' =>
      have he' : e' = PyErr.indexError := by
        unfold extractText at hx
        cases h2 : r.choices.getD [⟨none⟩] with
        | nil => rw [h2] at hx; exact (Except.error.injEq _ _).mp hx.symm
        | cons c cs => rw [h2] at hx; exact absurd hx (by simp)
      rw [hx] at he
      have : e = e' := ((Except.error.injEq _ _).mp he).symm
      rw [this, he']
      rfl
    | ok t =>
      rw [hx] at he
      have he2 : (if pyStartsWith (pyStrip t) "\x7b" = true then
          (match jsonLoads (pyStrip t) with
           | .ok j => Except.ok j
           | .error _ => Except.error PyErr.jsonDecodeError)
          else Except.ok (Json.obj [("analysis", Json.str t),
                                    ("structured", Json.bool false)]))
          = Except.error e := he
      by_cases hs : pyStartsWith (pyStrip t) "\x7b" = true
      · rw [if_pos hs] at he2
        cases hj : jsonLoads (pyStrip t) with
        | ok j => rw [hj] at he2; exact absurd he2 (by simp)
        | error u =>
          rw [hj] at he2
          have h5 : e = PyErr.jsonDecodeError := ((Except.error.injEq _ _).mp he2).symm
          rw [h5]
          rfl
      · rw [if_neg hs] at he2
        exact absurd he2 (by simp)
  refine ⟨?_, hcaught, ?_⟩
  · cases hb : parseLLMBody r with
    | ok j => exact ⟨j, by unfold parseLLMResponse; rw [hb]⟩
    | error e =>
      refine ⟨parseErrorDict r, ?_⟩
      unfold parseLLMResponse
      rw [hb]
      show (if caughtByParseExcept e = true then Except.ok (parseErrorDict r)
            else Except.error e) = Except.ok (parseErrorDict r)
      rw [if_pos (hcaught e hb)]
  · intro t hx hj
    by_cases hs : pyStartsWith (pyStrip t) "\x7b" = true
    · simp [parseLLMResponse, parseLLMBody, hx, hs, hj, caughtByParseExcept]
    · simp [parseLLMResponse, parseLLMBody, hx, hs, hj]

/-- Witness for `c8_parse_llm_defensive`: a plain-text reply is returned
as a degraded result with the raw text preserved. -/
theorem c8_parse_llm_defensive_witness :
    parseLLMResponse ⟨some [⟨some "plain text reply"⟩]⟩ =
      .ok (Json.obj [("analysis", Json.str "plain text reply"),
                     ("structured", Json.bool false)]) := by
  have h := (c8_parse_llm_defensive ⟨some [⟨some "plain text reply"⟩]⟩).2.2
    "plain text reply" rfl rfl
  exact h.trans (by rfl)

/-! ## Claim C10 — the all-fetches-empty short circuit of chat_openshift -/

theorem any_map_general {α β : Type} (f : α → β) (l : List α) (p : β → Bool) :
    (l.map f).any p = l.any (fun a => p (f a)) := by
  induction l with
  | nil => rfl
  | cons x xs ih => simp [List.any_cons, ih]

/-- C10: when every per-metric fetch raises or returns an empty frame,
`chat_openshift` makes no LLM call and returns the payload with an empty
`promql`, the fixed no-data guidance summary, and the resolved
`start_ts`/`end_ts`. -/
theorem c10_no_data_short_circuit :
    ∀ {α : Type} (fetch : String → Except Unit (List α)) (llm_response : String)
      (metric_category scope : String) (namespace_ : Option String)
      (start_ts end_ts : Int) (metrics_to_fetch : QuerySet),
      (∀ lq ∈ metrics_to_fetch, fetch lq.2 = .error () ∨ fetch lq.2 = .ok []) →
      chatFetchAndRespond fetch llm_response metric_category scope namespace_
          start_ts end_ts metrics_to_fetch =
        .resp ⟨metric_category, scope, namespace_.getD "", start_ts, end_ts,
               "", noDataSummary⟩ 0 := by
  intro α fetch lr cat scope ns st en mtf h
  unfold chatFetchAndRespond
  have hany : (mtf.map (fun lq => (lq.1, match fetch lq.2 with
      | .ok df => df
      | .error _ => ([] : List α)))).any (fun d => !d.2.isEmpty) = false := by
    rw [any_map_general, List.any_eq_false]
    intro lq hlq
    rcases h lq hlq with hf | hf <;> simp [hf]
  simp only [hany]
  rfl

def alwaysRaisingFetch : String → Except Unit (List Nat) := fun _ => .error ()

/-- Witness for `c10_no_data_short_circuit`: two queries, both raising. -/
theorem c10_no_data_short_circuit_witness :
    chatFetchAndRespond alwaysRaisingFetch "unused reply" "Workloads & Pods"
        NAMESPACE_SCOPED (some "team-a") 100 200
        [("Pods Running", "q1"), ("Pods Failed", "q2")] =
      .resp ⟨"Workloads & Pods", NAMESPACE_SCOPED, "team-a", 100, 200,
             "", noDataSummary⟩ 0 := by
  exact c10_no_data_short_circuit alwaysRaisingFetch "unused reply"
    "Workloads & Pods" NAMESPACE_SCOPED (some "team-a") 100 200
    [("Pods Running", "q1"), ("Pods Failed", "q2")]
    (by intro lq hlq; left; rfl)

end ObsSummarizer
